import Mathlib

/-!
Shallow embedding of the ACC server status monitor (`acc_monitor.py`):
the status classifier (`analyze_acc_status`, `determine_overall_status`,
`identify_issues`), the change-detection / persistence segment of `run`,
and the metrics-history rolling log (`save_metrics_history`).

Modelling conventions:
* JSON integers are `Int`; a JSON field that may be absent or `null` is an
  `Option`.  Timestamps are rationals (seconds since an arbitrary epoch);
  `datetime.now` becomes an explicit `now` parameter.
* Python `round(x, 1)` is `round1` below (Python rounds exact ties to even
  while Mathlib's `round` rounds them up; no value in this development sits
  on an exact tie, so the difference is immaterial).
* The `date` string of a reading is modelled by `Option DateField`:
  `none` for an absent, `null` or empty (falsy) field, `parsed t` for a
  string `datetime.fromisoformat` accepts, `malformed` for a non-empty
  string it rejects.
-/

namespace ACCMonitor

/-- Result of parsing the `date` field of the API payload: a parseable
ISO-8601 string carrying a timestamp `t` in seconds, or a non-empty string
`datetime.fromisoformat` raises on. -/
inductive DateField where
  | parsed (t : ℚ)
  | malformed
deriving DecidableEq, Repr

/-- Raw API reading as produced by `fetch_api_data` (lines 45-91): either a
fetch failure (`success = false`, `error` holds the reason) or the parsed
JSON fields.  `none` models an absent key (for `ping`, also an explicit
JSON `null`; a JSON `null` in `servers`/`players` would raise a `TypeError`
in the source and is outside this model). -/
structure RawReading where
  success : Bool
  error : Option String := none
  status : Option Int := none
  ping : Option Int := none
  servers : Option Int := none
  players : Option Int := none
  date : Option DateField := none
  down_since : Option String := none
deriving DecidableEq, Repr

/-- Threshold configuration, lines 24-40 of `__init__`; field defaults are
the values hard-coded there. -/
structure Config where
  max_acceptable_ping : Int := 150
  min_servers_expected : Int := 1000
  max_data_age_minutes : ℚ := 15
  warning_ping : Int := 100
  warning_servers : Int := 1200
deriving DecidableEq, Repr

/-- The configuration built by `__init__`. -/
def defaultConfig : Config := {}

/-- The analysis dictionary built by `analyze_acc_status`.  On the fetch
failure path the Python dict only carries `status`, `reason`, `timestamp`
and `source`; every consumer reads the other keys through defaults
(`.get(k, default)`), which the field defaults below reproduce. -/
structure AnalysisFields where
  status : String
  reason : Option String := none
  api_status : Option Int := none
  ping_ms : Option Int := none
  servers_count : Int := 0
  players_count : Int := 0
  data_age_minutes : ℚ := 0
  down_since : Option String := none
  issues : List String := []
deriving DecidableEq, Repr

/-- Python `round(x, 1)`. -/
def round1 (q : ℚ) : ℚ := (round (q * 10) : ℤ) / 10

/-- Data-age computation, lines 137-145: age 0 when the date string is
absent (or falsy), `(now - t) / 60` minutes when it parses, the sentinel
999 when parsing raises. -/
def computeDataAgeMinutes (now : ℚ) (date : Option DateField) : ℚ :=
  match date with
  | none => 0
  | some (DateField.parsed t) => (now - t) / 60
  | some DateField.malformed => 999

/-- The primary-issue list built inline in `determine_overall_status`,
lines 187-198. -/
def primary_issues (c : Config) (a : AnalysisFields) : List String :=
  (match a.ping_ms with
    | none => ["ping_null"]
    | some p => if p > c.max_acceptable_ping then ["ping_high"] else [])
  ++ (if a.servers_count < c.min_servers_expected then ["servers_low"] else [])
  ++ (if a.data_age_minutes > c.max_data_age_minutes then ["data_old"] else [])

/-- `determine_overall_status`, lines 166-206. -/
def determine_overall_status (c : Config) (a : AnalysisFields) : String :=
  if a.api_status = some 0 then "DOWN"
  else if a.api_status = some (-1) then "UNKNOWN"
  else if a.api_status ≠ some 1 then "API_ERROR"
  else
    let issues := primary_issues c a
    if issues = [] then "UP"
    else if issues.length = 1 ∧ issues.headD "" ∉ ["ping_null", "data_old"] then "DEGRADED"
    else "DOWN"

/-- `identify_issues`, lines 209-248.  Python `elif ping and ...` requires
`ping` truthy, i.e. present and non-zero. -/
def identify_issues (c : Config) (a : AnalysisFields) : List String :=
  let m := c.max_acceptable_ping
  let w := c.warning_ping
  let lo := c.min_servers_expected
  let s := a.servers_count
  let age := a.data_age_minutes
  let maxAge := c.max_data_age_minutes
  (if a.api_status = some 0 then ["ACC servers offline (API)"]
   else if a.api_status = some (-1) then ["ACC servers status unknown (API)"]
   else [])
  ++ (match a.ping_ms with
      | none => if a.api_status = some 1 then ["ACC ping unavailable"] else []
      | some p =>
        if p ≠ 0 ∧ p > m then [s!"ACC ping high: {p}ms (> {m}ms)"]
        else if p ≠ 0 ∧ p > w then [s!"ACC ping warning: {p}ms (> {w}ms)"]
        else [])
  ++ (if s < lo then [s!"ACC servers count low: {s} (< {lo})"]
      else if s < c.warning_servers then [s!"ACC servers count decreasing ({s})"]
      else [])
  ++ (if age > maxAge then [s!"ACC data too old: {age} minutes (> {maxAge} minutes)"]
      else [])

/-- `analyze_acc_status`, lines 113-163.  `now` is the wall-clock instant
(`datetime.now`) in seconds. -/
def analyze_acc_status (now : ℚ) (c : Config) (r : RawReading) : AnalysisFields :=
  if r.success = false then
    { status := "API_ERROR", reason := some (r.error.getD "API error") }
  else
    let fields : AnalysisFields :=
      { status := "",
        api_status := r.status,
        ping_ms := r.ping,
        servers_count := r.servers.getD 0,
        players_count := r.players.getD 0,
        data_age_minutes := round1 (computeDataAgeMinutes now r.date),
        down_since := r.down_since }
    { fields with
        status := determine_overall_status c fields,
        issues := identify_issues c fields }

/-- Python slice `l[-n:]`: the last `n` elements (all of them when
`l.length ≤ n`). -/
def lastSlice (n : Nat) (l : List AnalysisFields) : List AnalysisFields :=
  l.drop (l.length - n)

/-- `save_metrics_history`, lines 425-436: append the new analysis, then
keep only the last 200 entries (`history[-200:]`). -/
def save_metrics_history (history : List AnalysisFields) (a : AnalysisFields) :
    List AnalysisFields :=
  lastSlice 200 (history ++ [a])

/-- The first component of the tuple at lines 515-518 of `run`:
`last_status is None or last_status != current_status or
current_status in ["DOWN", "API_ERROR"]`. -/
def change_or_critical (last : Option String) (current : String) : Bool :=
  last.isNone || decide (last ≠ some current) || decide (current ∈ ["DOWN", "API_ERROR"])

/-- `significant_change`, lines 515-520.  The trailing comma after the
`in`-check makes the parenthesised expression a 2-tuple whose first
component is the three-way disjunction and whose second component is the
force flag. -/
def significant_change (last : Option String) (current : String) (force : Bool) :
    Bool × Bool :=
  (change_or_critical last current, force)

/-- Python truthiness of a 2-tuple: `bool((x, y))` is `True` because the
tuple is non-empty, regardless of its elements. -/
def tupleTruthy (_t : Bool × Bool) : Bool := true

/-- The notification decision actually taken at line 522
(`if significant_change:`). -/
def notify_decision (last : Option String) (current : String) (force : Bool) : Bool :=
  tupleTruthy (significant_change last current force)

/-- Outcome of the webhook POST inside `send_discord_notification`,
lines 385-416: no webhook configured, an HTTP response with some status
code, or a raised exception. -/
inductive SendOutcome where
  | noWebhook
  | httpResponse (code : Int)
  | exceptionRaised
deriving DecidableEq, Repr

/-- Return value of `send_discord_notification`: `true` exactly on an HTTP
204 response (lines 393-416). -/
def send_discord_result : SendOutcome → Bool
  | SendOutcome.noWebhook => false
  | SendOutcome.httpResponse code => decide (code = 204)
  | SendOutcome.exceptionRaised => false

/-- The notification / persistence segment of `run`, lines 522-537,
returning the content of the last-status file after the run
(`save_status current` happens only when the notification succeeded). -/
def run_notify_persist (last : Option String) (current : String) (force : Bool)
    (o : SendOutcome) : Option String :=
  if notify_decision last current force then
    if send_discord_result o then some current else last
  else last

/-- Modelled from the spec, section 4.2 (Change Detector): notify iff no
prior status, or the status changed, or the current status is critical
(`DOWN` / `API_ERROR`), or the force flag is set.  Stated for comparison
with the code's `notify_decision`. -/
def spec_notify_rule (last : Option String) (current : String) (force : Bool) : Bool :=
  last.isNone || decide (last ≠ some current)
    || decide (current ∈ ["DOWN", "API_ERROR"]) || force

/-- Modelled from the spec, section 4.1 step 5 (status resolution policy),
stated in terms of the number of primary issues for comparison with
`determine_overall_status`: zero issues → UP; exactly one issue that is
neither ping-missing nor data-old → DEGRADED; otherwise DOWN. -/
def spec_status_policy (c : Config) (a : AnalysisFields) : String :=
  let pingMissing := a.ping_ms.isNone
  let pingHigh := match a.ping_ms with
    | none => false
    | some p => decide (p > c.max_acceptable_ping)
  let serversLow := decide (a.servers_count < c.min_servers_expected)
  let dataOld := decide (a.data_age_minutes > c.max_data_age_minutes)
  let n := (cond pingMissing 1 0) + (cond pingHigh 1 0)
    + (cond serversLow 1 0) + (cond dataOld 1 0)
  if n = 0 then "UP"
  else if n = 1 ∧ pingMissing = false ∧ dataOld = false then "DEGRADED"
  else "DOWN"

example :
    determine_overall_status defaultConfig
      { status := "", api_status := some 1, ping_ms := some 35,
        servers_count := 1600, data_age_minutes := 2 } = "UP" := by decide

example :
    determine_overall_status defaultConfig
      { status := "", api_status := some 1, ping_ms := none,
        servers_count := 1600, data_age_minutes := 2 } = "DOWN" := by decide

example :
    determine_overall_status defaultConfig
      { status := "", api_status := some 1, ping_ms := some 35,
        servers_count := 900, data_age_minutes := 2 } = "DEGRADED" := by decide

example :
    (analyze_acc_status 0 defaultConfig
      { success := true, status := some 1, ping := some 50,
        servers := some 2000, players := some 100,
        date := some (DateField.parsed 0) }).status = "UP" := by
  norm_num [analyze_acc_status, determine_overall_status, primary_issues, round1,
    computeDataAgeMinutes, defaultConfig]

/-- Central case analysis: on the `api_status = 1` path,
`determine_overall_status` implements the count-based policy of the spec. -/
theorem determine_up_eq_policy (c : Config) (a : AnalysisFields)
    (h : a.api_status = some 1) :
    determine_overall_status c a = spec_status_policy c a := by
  rcases hp : a.ping_ms with _ | p
  · by_cases h1 : a.servers_count < c.min_servers_expected <;>
      by_cases h2 : a.data_age_minutes > c.max_data_age_minutes <;>
      simp [determine_overall_status, spec_status_policy, primary_issues, h, hp, h1, h2]
  · by_cases h0 : p > c.max_acceptable_ping <;>
      by_cases h1 : a.servers_count < c.min_servers_expected <;>
      by_cases h2 : a.data_age_minutes > c.max_data_age_minutes <;>
      simp [determine_overall_status, spec_status_policy, primary_issues, h, hp, h0, h1, h2]

/-- C1: for a successfully fetched reading with raw status Up, the status
resolution follows the asymmetric policy: zero primary issues yields UP;
exactly one issue that is neither ping-missing nor data-old yields
DEGRADED; every other case yields DOWN (`spec_status_policy` states this
policy in the spec's count-based terms). -/
theorem c1_up_status_resolution (c : Config) (a : AnalysisFields)
    (h : a.api_status = some 1) :
    determine_overall_status c a = spec_status_policy c a :=
  determine_up_eq_policy c a h

/-- Witness for C1 at a concrete analysis whose only issue is a low server
count. -/
theorem c1_up_status_resolution_witness :
    determine_overall_status defaultConfig
      { status := "", api_status := some 1, ping_ms := some 35,
        servers_count := 900, data_age_minutes := 2 } =
    spec_status_policy defaultConfig
      { status := "", api_status := some 1, ping_ms := some 35,
        servers_count := 900, data_age_minutes := 2 } :=
  c1_up_status_resolution defaultConfig
    { status := "", api_status := some 1, ping_ms := some 35,
      servers_count := 900, data_age_minutes := 2 } rfl

/-- C6: on a successful fetch, raw status 0 maps to DOWN and -1 to UNKNOWN
regardless of the other fields, and any raw status other than 1 / 0 / -1
(including an absent one) maps to API_ERROR. -/
theorem c6_raw_status_mapping (now : ℚ) (c : Config) (r : RawReading)
    (h : r.success = true) :
    (r.status = some 0 → (analyze_acc_status now c r).status = "DOWN") ∧
    (r.status = some (-1) → (analyze_acc_status now c r).status = "UNKNOWN") ∧
    (r.status ≠ some 0 → r.status ≠ some (-1) → r.status ≠ some 1 →
      (analyze_acc_status now c r).status = "API_ERROR") := by
  refine ⟨fun h0 => ?_, fun h1 => ?_, fun h0 h1 h2 => ?_⟩ <;>
    simp [analyze_acc_status, determine_overall_status, h, *]

/-- Witness for C6 at a reading with raw status 0. -/
theorem c6_raw_status_mapping_witness :
    (analyze_acc_status 0 defaultConfig
      { success := true, status := some 0, ping := none, servers := some 5,
        players := some 7, date := some DateField.malformed }).status = "DOWN" :=
  (c6_raw_status_mapping 0 defaultConfig
    { success := true, status := some 0, ping := none, servers := some 5,
      players := some 7, date := some DateField.malformed } rfl).1 rfl

/-- C8: the warning-level thresholds have no effect on the computed status:
two configurations agreeing on the three primary thresholds classify every
successfully fetched reading with the same status. -/
theorem c8_warning_thresholds_irrelevant (now : ℚ) (c c2 : Config) (r : RawReading)
    (hs : r.success = true)
    (h1 : c.max_acceptable_ping = c2.max_acceptable_ping)
    (h2 : c.min_servers_expected = c2.min_servers_expected)
    (h3 : c.max_data_age_minutes = c2.max_data_age_minutes) :
    (analyze_acc_status now c r).status = (analyze_acc_status now c2 r).status := by
  simp [analyze_acc_status, determine_overall_status, primary_issues, hs, h1, h2, h3]

/-- Witness for C8: configurations differing only in the warning thresholds
give the same status to a concrete reading. -/
theorem c8_warning_thresholds_irrelevant_witness :
    (analyze_acc_status 0 defaultConfig
      { success := true, status := some 1, ping := some 120,
        servers := some 1100, players := some 9,
        date := some (DateField.parsed 0) }).status =
    (analyze_acc_status 0 { warning_ping := 0, warning_servers := 5000 }
      { success := true, status := some 1, ping := some 120,
        servers := some 1100, players := some 9,
        date := some (DateField.parsed 0) }).status :=
  c8_warning_thresholds_irrelevant 0 defaultConfig
    { warning_ping := 0, warning_servers := 5000 }
    { success := true, status := some 1, ping := some 120,
      servers := some 1100, players := some 9,
      date := some (DateField.parsed 0) } rfl rfl rfl rfl

/-- Evaluation of `round1` at the parse-failure sentinel. -/
theorem round1_sentinel : round1 (999 : ℚ) = 999 := by
  norm_num [round1]

/-- A fetch-failure reading, as `create_api_error "API timeout"` produces. -/
def errReading : RawReading :=
  { success := false, error := some "API timeout" }

/-- A successful Up reading whose `date` field is absent. -/
def noDateUpReading : RawReading :=
  { success := true, status := some 1, ping := some 50, servers := some 2000,
    players := some 100 }

/-- C2 (code defect): at last status UP, current status UP and an unset
force flag, the code's notification decision is `true` (the parenthesised
condition at lines 515-520 is a 2-tuple, hence always truthy), while the
spec's change-detection rule decides `false`. -/
theorem c2_notify_decision_always_true :
    notify_decision (some "UP") "UP" false = true ∧
    spec_notify_rule (some "UP") "UP" false = false := by
  decide

/-- C3: when the webhook delivery fails (no webhook configured, a non-204
response, or an exception), the last-status file is left unchanged; the
file changes only when the notify decision held and delivery succeeded. -/
theorem c3_failed_delivery_preserves_state (last : Option String) (current : String)
    (force : Bool) (o : SendOutcome) :
    (send_discord_result o = false → run_notify_persist last current force o = last) ∧
    (run_notify_persist last current force o ≠ last →
      notify_decision last current force = true ∧ send_discord_result o = true) := by
  constructor
  · intro hf
    simp [run_notify_persist, hf]
  · intro hne
    cases hs : send_discord_result o
    · exact absurd (by simp [run_notify_persist, hs]) hne
    · exact ⟨rfl, rfl⟩

/-- Witness for C3: a run without a configured webhook leaves the persisted
status untouched. -/
theorem c3_failed_delivery_preserves_state_witness :
    run_notify_persist (some "UP") "DOWN" false SendOutcome.noWebhook = some "UP" :=
  (c3_failed_delivery_preserves_state (some "UP") "DOWN" false SendOutcome.noWebhook).1 rfl

/-- Counterexample to C4 as stated: on a fetch failure the analysis does
carry status API_ERROR, but its issue list is empty (the reason lives in a
separate `reason` field), not the one-element list of the error reason. -/
theorem c4_counterexample :
    ¬ ((analyze_acc_status 0 defaultConfig errReading).status = "API_ERROR" ∧
       (analyze_acc_status 0 defaultConfig errReading).issues = ["API timeout"]) := by
  simp [analyze_acc_status, errReading]

/-- C4 (amended): on a fetch failure the analysis has status API_ERROR,
carries the fetch error reason in its `reason` field (defaulting to
"API error"), has an empty issue list, and the quality checks are
skipped. -/
theorem c4_fetch_error_analysis (now : ℚ) (c : Config) (r : RawReading)
    (h : r.success = false) :
    (analyze_acc_status now c r).status = "API_ERROR" ∧
    (analyze_acc_status now c r).reason = some (r.error.getD "API error") ∧
    (analyze_acc_status now c r).issues = [] := by
  simp [analyze_acc_status, h]

/-- Witness for C4 at the timeout reading. -/
theorem c4_fetch_error_analysis_witness :
    (analyze_acc_status 0 defaultConfig errReading).status = "API_ERROR" ∧
    (analyze_acc_status 0 defaultConfig errReading).reason = some "API timeout" ∧
    (analyze_acc_status 0 defaultConfig errReading).issues = [] :=
  c4_fetch_error_analysis 0 defaultConfig errReading rfl

/-- Counterexample to C5 as stated: a reading with an absent `date` field
gets data age 0, not a large sentinel, so with raw status Up and healthy
metrics it is classified UP. -/
theorem c5_counterexample :
    noDateUpReading.date = none ∧
    (analyze_acc_status 0 defaultConfig noDateUpReading).data_age_minutes = 0 ∧
    (analyze_acc_status 0 defaultConfig noDateUpReading).status = "UP" := by
  refine ⟨rfl, ?_, ?_⟩ <;>
    norm_num [analyze_acc_status, determine_overall_status, primary_issues,
      round1, computeDataAgeMinutes, noDateUpReading, defaultConfig]

/-- C5 (amended): only a present-but-unparsable `date` yields the sentinel
age 999; then, whenever the configured maximum age is below 999, the
staleness check triggers and a reading with raw status Up is not
classified UP. -/
theorem c5_malformed_date_forces_not_up (now : ℚ) (c : Config) (r : RawReading)
    (hs : r.success = true) (hd : r.date = some DateField.malformed)
    (hst : r.status = some 1) (hm : c.max_data_age_minutes < 999) :
    (analyze_acc_status now c r).data_age_minutes = 999 ∧
    (analyze_acc_status now c r).status ≠ "UP" := by
  have hage : round1 (computeDataAgeMinutes now r.date) = 999 := by
    rw [hd]
    simpa [computeDataAgeMinutes] using round1_sentinel
  have h2 : (999 : ℚ) > c.max_data_age_minutes := hm
  constructor
  · simp [analyze_acc_status, hs, hage]
  · rcases hp : r.ping with _ | p
    · by_cases h1 : (r.servers.getD 0 : Int) < c.min_servers_expected <;>
        simp [analyze_acc_status, determine_overall_status, primary_issues,
          hs, hst, hp, hage, h1, h2]
    · by_cases h0 : p > c.max_acceptable_ping <;>
        by_cases h1 : (r.servers.getD 0 : Int) < c.min_servers_expected <;>
        simp [analyze_acc_status, determine_overall_status, primary_issues,
          hs, hst, hp, hage, h0, h1, h2]

/-- Witness for C5 (amended) at a malformed-date reading. -/
theorem c5_malformed_date_forces_not_up_witness :
    (analyze_acc_status 0 defaultConfig
      { success := true, status := some 1, ping := some 50,
        servers := some 2000, players := some 100,
        date := some DateField.malformed }).data_age_minutes = 999 ∧
    (analyze_acc_status 0 defaultConfig
      { success := true, status := some 1, ping := some 50,
        servers := some 2000, players := some 100,
        date := some DateField.malformed }).status ≠ "UP" :=
  c5_malformed_date_forces_not_up 0 defaultConfig
    { success := true, status := some 1, ping := some 50,
      servers := some 2000, players := some 100,
      date := some DateField.malformed } rfl rfl rfl (by norm_num [defaultConfig])

/-- A successful Up reading with a parseable date stamp `t = 0`. -/
def clockReading : RawReading :=
  { success := true, status := some 1, ping := some 50, servers := some 2000,
    players := some 100, date := some (DateField.parsed 0) }

/-- A successful Up reading whose `servers` field is absent. -/
def noServersReading : RawReading :=
  { success := true, status := some 1, ping := some 50, players := some 3,
    date := some (DateField.parsed 0) }

/-- C7: saving appends the new analysis at the end and keeps only the most
recent 200 entries: the resulting log ends with the new entry, has length
min(previous length + 1, 200), is unchanged-plus-append below the cap, and
at the cap drops the oldest entry while the length stays 200. -/
theorem c7_metrics_history_cap (history : List AnalysisFields) (a : AnalysisFields) :
    (save_metrics_history history a).length = min (history.length + 1) 200 ∧
    (save_metrics_history history a).getLast? = some a ∧
    (history.length < 200 → save_metrics_history history a = history ++ [a]) ∧
    (history.length = 200 →
      save_metrics_history history a = history.tail ++ [a] ∧
      (save_metrics_history history a).length = 200) := by
  have hk : (history ++ [a]).length - 200 ≤ history.length := by
    simp
  refine ⟨?_, ?_, ?_, ?_⟩
  · simp [save_metrics_history, lastSlice]
    omega
  · rw [save_metrics_history, lastSlice, List.drop_append_of_le_length hk]
    exact List.getLast?_concat _
  · intro h
    have h0 : history.length - 199 = 0 := by omega
    simp [save_metrics_history, lastSlice, h0]
  · intro h
    constructor
    · rw [save_metrics_history, lastSlice, List.drop_append_of_le_length hk]
      simp [h, List.drop_one]
    · simp [save_metrics_history, lastSlice, h]

/-- Witness for C7: appending to a log of exactly 200 entries drops the
oldest entry and the length stays 200. -/
theorem c7_metrics_history_cap_witness :
    save_metrics_history
        (List.replicate 200 (analyze_acc_status 0 defaultConfig errReading))
        (analyze_acc_status 0 defaultConfig noDateUpReading) =
      (List.replicate 200 (analyze_acc_status 0 defaultConfig errReading)).tail ++
        [analyze_acc_status 0 defaultConfig noDateUpReading] ∧
    (save_metrics_history
        (List.replicate 200 (analyze_acc_status 0 defaultConfig errReading))
        (analyze_acc_status 0 defaultConfig noDateUpReading)).length = 200 :=
  (c7_metrics_history_cap
      (List.replicate 200 (analyze_acc_status 0 defaultConfig errReading))
      (analyze_acc_status 0 defaultConfig noDateUpReading)).2.2.2
    (List.length_replicate 200 _)

/-- Counterexample to C9 as stated: the very same reading under the very
same thresholds is classified UP when analysed at the instant of its date
stamp but DOWN when analysed twenty minutes later, because the data age is
computed against the wall clock. -/
theorem c9_counterexample :
    (analyze_acc_status 0 defaultConfig clockReading).status = "UP" ∧
    (analyze_acc_status 1200 defaultConfig clockReading).status = "DOWN" ∧
    (analyze_acc_status 0 defaultConfig clockReading).status ≠
      (analyze_acc_status 1200 defaultConfig clockReading).status := by
  have h1 : (analyze_acc_status 0 defaultConfig clockReading).status = "UP" := by
    norm_num [analyze_acc_status, determine_overall_status, primary_issues,
      round1, computeDataAgeMinutes, clockReading, defaultConfig]
  have h2 : (analyze_acc_status 1200 defaultConfig clockReading).status = "DOWN" := by
    norm_num [analyze_acc_status, determine_overall_status, primary_issues,
      round1, computeDataAgeMinutes, clockReading, defaultConfig]
  exact ⟨h1, h2, by rw [h1, h2]; decide⟩

/-- C9 (amended): Analysis.status is a pure deterministic function of the
reading, the thresholds and the observation time: at the same time and
under the same thresholds, readings agreeing on success, status, ping,
servers and date receive the same status, independently of the error text,
players count and down-since fields. -/
theorem c9_status_determined_by_inputs (now : ℚ) (c : Config) (r r2 : RawReading)
    (h1 : r.success = r2.success) (h2 : r.status = r2.status)
    (h3 : r.ping = r2.ping) (h4 : r.servers = r2.servers) (h5 : r.date = r2.date) :
    (analyze_acc_status now c r).status = (analyze_acc_status now c r2).status := by
  have h1s := h1.symm
  cases hs : r.success <;> rw [h1] at hs <;>
    simp [analyze_acc_status, determine_overall_status, primary_issues,
      hs, h1s ▸ hs, h2, h3, h4, h5]

/-- Witness for C9 (amended): readings differing only in players and
down-since receive the same status. -/
theorem c9_status_determined_by_inputs_witness :
    (analyze_acc_status 0 defaultConfig clockReading).status =
    (analyze_acc_status 0 defaultConfig
      { success := true, status := some 1, ping := some 50, servers := some 2000,
        players := some 1, date := some (DateField.parsed 0),
        down_since := some "2023-01-01T03:00:00.000Z" }).status :=
  c9_status_determined_by_inputs 0 defaultConfig clockReading
    { success := true, status := some 1, ping := some 50, servers := some 2000,
      players := some 1, date := some (DateField.parsed 0),
      down_since := some "2023-01-01T03:00:00.000Z" }
    rfl rfl rfl rfl rfl

/-- C10: a successful Up reading without a `servers` field is treated as
having 0 servers, so for any positive minimum the servers-low issue
triggers and the status is never UP: it is DEGRADED or DOWN. -/
theorem c10_missing_servers_never_up (now : ℚ) (c : Config) (r : RawReading)
    (hs : r.success = true) (hst : r.status = some 1) (hsv : r.servers = none)
    (hmin : 0 < c.min_servers_expected) :
    (analyze_acc_status now c r).servers_count = 0 ∧
    "servers_low" ∈ primary_issues c (analyze_acc_status now c r) ∧
    (analyze_acc_status now c r).status ≠ "UP" ∧
    ((analyze_acc_status now c r).status = "DEGRADED" ∨
      (analyze_acc_status now c r).status = "DOWN") := by
  rcases hp : r.ping with _ | p
  · by_cases h2 : round1 (computeDataAgeMinutes now r.date) > c.max_data_age_minutes <;>
      simp [analyze_acc_status, determine_overall_status, primary_issues,
        hs, hst, hsv, hp, h2, hmin]
  · by_cases h0 : p > c.max_acceptable_ping <;>
      by_cases h2 : round1 (computeDataAgeMinutes now r.date) > c.max_data_age_minutes <;>
      simp [analyze_acc_status, determine_overall_status, primary_issues,
        hs, hst, hsv, hp, h0, h2, hmin]

/-- Witness for C10 at a reading omitting the servers field under the
default thresholds. -/
theorem c10_missing_servers_never_up_witness :
    (analyze_acc_status 0 defaultConfig noServersReading).servers_count = 0 ∧
    "servers_low" ∈ primary_issues defaultConfig
      (analyze_acc_status 0 defaultConfig noServersReading) ∧
    (analyze_acc_status 0 defaultConfig noServersReading).status ≠ "UP" ∧
    ((analyze_acc_status 0 defaultConfig noServersReading).status = "DEGRADED" ∨
      (analyze_acc_status 0 defaultConfig noServersReading).status = "DOWN") :=
  c10_missing_servers_never_up 0 defaultConfig noServersReading rfl rfl rfl (by decide)

end ACCMonitor
